import Mathlib

/-!
Verification of the invoice billing-cycle engine of the smartpg backend.

The development shallowly embeds the payment-domain code (payment/models.py,
payment/signals.py, payment/tasks.py) and the subscription validity helpers
(subscription/utils.py).  Python `date` values become a `Date` structure of
naturals compared lexicographically; `Decimal` currency amounts become `Int`
(the code only adds, subtracts, compares and floors them, all exact);
timezone-aware datetimes become day/microsecond pairs under one fixed zone.
Database querysets become lists of rows.
-/

/-- Calendar date, compared lexicographically like Python `datetime.date`. -/
structure Date where
  y : Nat
  m : Nat
  d : Nat
  deriving DecidableEq, Repr, BEq

/-- Strict lexicographic order on dates, matching Python date comparison. -/
def dateLtB (a b : Date) : Bool :=
  if a.y < b.y then true
  else if b.y < a.y then false
  else if a.m < b.m then true
  else if b.m < a.m then false
  else decide (a.d < b.d)

/-- Non-strict lexicographic order on dates. -/
def dateLeB (a b : Date) : Bool :=
  dateLtB a b || decide (a = b)

/-- Gregorian leap-year rule, as used by Python `calendar.monthrange`. -/
def isLeapYear (y : Nat) : Bool :=
  y % 4 == 0 && (y % 100 != 0 || y % 400 == 0)

/-- Number of days in a month, the second component of `calendar.monthrange`. -/
def daysInMonth (y m : Nat) : Nat :=
  if m == 2 then (if isLeapYear y then 29 else 28)
  else if m == 4 || m == 6 || m == 9 || m == 11 then 30
  else 31

/-- Embeds `Invoice._clamp_day`: keep the day if possible, else clamp to the
last day of the month (and at least day 1). -/
def clampDay (year month day : Nat) : Date :=
  let last := daysInMonth year month
  let safeDay := max 1 (min day last)
  ⟨year, month, safeDay⟩

/-- Embeds `Invoice._month_add`: add months preserving day-of-month with
end-of-month clamping. -/
def monthAdd (dt : Date) (months : Nat) : Date :=
  let m0 := dt.m + months
  let y := dt.y + (m0 - 1) / 12
  let m := ((m0 - 1) % 12) + 1
  clampDay y m dt.d

/-- Embeds `Invoice._first_day_of_month`. -/
def firstDayOfMonth (dt : Date) : Date :=
  ⟨dt.y, dt.m, 1⟩

/-- Invoice status, embedding `Invoice.Status` (`opened` is the source OPEN
state and `partialPaid` the source PARTIAL state; both source names are Lean
keywords or reserved). -/
inductive InvStatus where
  | draft
  | opened
  | partialPaid
  | paid
  | overdue
  | void
  deriving DecidableEq, Repr, BEq

/-- Booking status, embedding `bookings.Booking.STATUS_CHOICES`. -/
inductive BookingStatus where
  | reserved
  | pending
  | confirmed
  | canceled
  | converted
  | checkedOut
  deriving DecidableEq, Repr, BEq

/-- Booking row, restricted to the attributes the payment domain reads.
`bookedAt` is the local date of the confirmation timestamp. -/
structure Booking where
  status : BookingStatus
  bookedAt : Option Date
  startDate : Option Date
  endDate : Option Date
  monthlyRent : Int
  securityDeposit : Int
  discountAmount : Int
  maintenanceAmount : Int
  deriving DecidableEq, Repr

/-- Invoice row, embedding the persistent fields of `payment.models.Invoice`
that the engine reads or writes. -/
structure Invoice where
  bookingId : Nat
  cycleMonth : Date
  issueDate : Date
  dueDate : Date
  amount : Int
  taxAmount : Int
  discountAmount : Int
  totalAmount : Int
  balanceDue : Int
  status : InvStatus
  notes : String
  deriving DecidableEq, Repr

/-- Embeds `Invoice.apply_payment_amount`: a non-positive amount returns
without touching the row; otherwise the balance is floored at zero and the
status updated. -/
def applyPaymentAmount (inv : Invoice) (payAmount : Int) : Invoice :=
  if payAmount ≤ 0 then inv
  else
    let newBalance := inv.balanceDue - payAmount
    let bal := max newBalance 0
    let st :=
      if bal = 0 then InvStatus.paid
      else if inv.status = InvStatus.draft ∨ inv.status = InvStatus.opened then
        InvStatus.partialPaid
      else inv.status
    { inv with balanceDue := bal, status := st }

/-- Embeds `Invoice.adjust_payment_delta`: a zero delta returns without
touching the row (Python `if not delta`); otherwise the balance is floored at
zero and a remaining balance demotes draft, open and paid to partial. -/
def adjustPaymentDelta (inv : Invoice) (delta : Int) : Invoice :=
  if delta = 0 then inv
  else
    let current := inv.balanceDue
    let newBalance := current - delta
    let bal := max newBalance 0
    let st :=
      if bal = 0 then InvStatus.paid
      else if inv.status = InvStatus.draft ∨ inv.status = InvStatus.opened ∨
          inv.status = InvStatus.paid then
        InvStatus.partialPaid
      else inv.status
    { inv with balanceDue := bal, status := st }

/-- Embeds `Invoice.recalc_totals`: the total is always recomputed and the
balance initialized from it only while the row is being inserted
(`self._state.adding`). -/
def recalcTotals (inv : Invoice) (adding : Bool) : Invoice :=
  let total := (inv.amount + inv.taxAmount) - inv.discountAmount
  { inv with
      totalAmount := total,
      balanceDue := if adding then total else inv.balanceDue }

/-- One reconciliation step against an invoice, for stating properties of
call sequences. -/
inductive PayOp where
  | apply (amount : Int)
  | adjust (delta : Int)
  deriving DecidableEq, Repr

/-- Run one reconciliation operation. -/
def runPayOp (inv : Invoice) (op : PayOp) : Invoice :=
  match op with
  | PayOp.apply a => applyPaymentAmount inv a
  | PayOp.adjust d => adjustPaymentDelta inv d

/-- Run a sequence of reconciliation operations left to right. -/
def runPayOps (inv : Invoice) (ops : List PayOp) : Invoice :=
  ops.foldl runPayOp inv

/-- Generation mode, embedding `InvoiceSettings.GenerateType`. -/
inductive GenerateType where
  | manual
  | automatic
  deriving DecidableEq, Repr

/-- Billing period, embedding `InvoiceSettings.Period`. -/
inductive Period where
  | daily
  | weekly
  | monthly
  deriving DecidableEq, Repr

/-- Generation moment, embedding `InvoiceSettings.GenerateOn` (`stop` is the
source END choice, a Lean keyword). -/
inductive GenerateOn where
  | start
  | stop
  deriving DecidableEq, Repr

/-- Monthly cycle strategy, embedding `InvoiceSettings.MonthlyCycle`. -/
inductive MonthlyCycle where
  | calendarMonth
  | checkinDate
  | customDay
  deriving DecidableEq, Repr

/-- Invoice settings row, restricted to the fields read by the monthly
window calculator and the generation triggers. -/
structure InvoiceSettings where
  generateType : GenerateType
  period : Period
  generateOn : GenerateOn
  monthlyCycle : MonthlyCycle
  monthlyCustomDay : Option Nat
  deriving DecidableEq, Repr

/-- In-memory defaults both triggers synthesize when no settings row exists. -/
def defaultInvoiceSettings : InvoiceSettings :=
  { generateType := GenerateType.automatic
    period := Period.monthly
    generateOn := GenerateOn.start
    monthlyCycle := MonthlyCycle.checkinDate
    monthlyCustomDay := none }

/-- Embeds `Invoice._checkin_anchor_for_booking` on the optional check-in
date: day 1 or a day on or past the last day of the month anchors to month
end, otherwise to the same day-of-month. -/
def checkinAnchorForBooking (startDate : Option Date) : Option Date :=
  match startDate with
  | none => none
  | some s =>
    let last := daysInMonth s.y s.m
    if s.d = 1 ∨ s.d ≥ last then some ⟨s.y, s.m, last⟩
    else some ⟨s.y, s.m, s.d⟩

/-- Embeds `Invoice._derive_cycle_anchor`: prefer the check-in anchor, fall
back to the confirmation date of a confirmed booking. -/
def deriveCycleAnchor (b : Booking) : Option Date :=
  match checkinAnchorForBooking b.startDate with
  | some anchor => some anchor
  | none =>
    match b.bookedAt with
    | some confirmed => if b.status = BookingStatus.confirmed then some confirmed else none
    | none => none

/-- Computed billing window, embedding the dict returned by
`InvoiceSettings.monthly_period_window`. -/
structure Window where
  startD : Date
  endD : Date
  genOn : Date
  deriving DecidableEq, Repr

/-- Embeds `InvoiceSettings._calc_monthly_custom_window`. -/
def calcMonthlyCustomWindow (customDay : Option Nat) (ref : Date) : Date × Date :=
  let day := match customDay with
    | some v => if v = 0 then 1 else v
    | none => 1
  let start := clampDay ref.y ref.m day
  (start, monthAdd start 1)

/-- Tests the Python truthiness of the optional custom day. -/
def customDayTruthy (o : Option Nat) : Bool :=
  match o with
  | some v => v != 0
  | none => false

/-- Embeds `InvoiceSettings.monthly_period_window`: custom-day clamping,
check-in anchored alignment, or calendar-month fallback, then the generation
date per `generate_on`. -/
def monthlyPeriodWindow (s : InvoiceSettings) (ref : Date) (booking : Option Booking) :
    Window :=
  let bStart : Option Date := booking.bind (fun b => b.startDate)
  let picked : Option (Date × Date) :=
    if s.monthlyCycle = MonthlyCycle.customDay ∧ customDayTruthy s.monthlyCustomDay then
      some (calcMonthlyCustomWindow s.monthlyCustomDay ref)
    else if s.monthlyCycle = MonthlyCycle.checkinDate ∧ bStart.isSome then
      match checkinAnchorForBooking bStart with
      | some anchor =>
        let aligned := clampDay ref.y ref.m anchor.d
        some (aligned, monthAdd aligned 1)
      | none => none
    else
      let first : Date := ⟨ref.y, ref.m, 1⟩
      some (first, monthAdd first 1)
  let pair := match picked with
    | some p => p
    | none => (ref, monthAdd ref 1)
  let genDate := if s.generateOn = GenerateOn.start then pair.1 else pair.2
  { startD := pair.1, endD := pair.2, genOn := genDate }

/-- Tests whether the list of rows already holds an invoice for the given
booking and cycle month. -/
def invoiceExists (db : List Invoice) (bid : Nat) (cm : Date) : Bool :=
  db.any (fun i => decide (i.bookingId = bid) && decide (i.cycleMonth = cm))

/-- Embeds the clean-method expression `b.end_date or today` bounding the
cycle month from above. -/
def upperBoundDate (b : Booking) (today : Date) : Date :=
  match b.endDate with
  | some e => e
  | none => today

/-- Embeds `Invoice.clean` for a row being created: confirmed booking with a
confirmation date, cycle month inside the anchor-to-upper-bound window,
no duplicate, due date not before issue date, discount within subtotal plus
tax. -/
def invoiceCleanOk (b : Booking) (today : Date) (inv : Invoice) (db : List Invoice) :
    Bool :=
  if b.status ≠ BookingStatus.confirmed then false
  else if b.bookedAt = none then false
  else
    match deriveCycleAnchor b with
    | none => false
    | some anchorDate =>
      let upperBound := upperBoundDate b today
      if dateLtB inv.cycleMonth (firstDayOfMonth anchorDate) then false
      else if dateLtB (firstDayOfMonth upperBound) inv.cycleMonth then false
      else if invoiceExists db inv.bookingId inv.cycleMonth then false
      else if dateLtB inv.dueDate inv.issueDate then false
      else if inv.amount + inv.taxAmount < inv.discountAmount then false
      else true

/-- Embeds `Invoice.save` for a fresh row with an explicit cycle month: the
cycle month is normalized to the first of its month, totals recomputed with
the balance initialized, and the row persisted only when `full_clean`
passes; a validation error leaves the table unchanged. -/
def saveNewInvoice (b : Booking) (today : Date) (inv : Invoice) (db : List Invoice) :
    List Invoice :=
  let normalized := { inv with cycleMonth := firstDayOfMonth inv.cycleMonth }
  let inv' := recalcTotals normalized true
  if invoiceCleanOk b today inv' db then db ++ [inv'] else db

/-- Tests the source condition `old_status and old_status != instance.status`
used by both booking signals to detect a status transition. -/
def statusTransitioned (oldStatus : Option BookingStatus) (cur : BookingStatus) : Bool :=
  match oldStatus with
  | some os => decide (os ≠ cur)
  | none => false

/-- Embeds `payment.signals.create_first_invoice_on_confirm` for one booking
save event.  `hasOwner` stands for the building-owner chain being resolvable
and `settingsOpt` for the resolved settings row, if any. -/
def createFirstInvoiceOnConfirm (b : Booking) (bid : Nat)
    (settingsOpt : Option InvoiceSettings) (hasOwner created : Bool)
    (oldStatus : Option BookingStatus) (today : Date) (db : List Invoice) :
    List Invoice :=
  if b.status ≠ BookingStatus.confirmed then db
  else if !created && !(statusTransitioned oldStatus b.status) then db
  else
    match b.startDate with
    | none => db
    | some sd =>
      if ¬hasOwner then db
      else
        let s := settingsOpt.getD defaultInvoiceSettings
        if ¬(s.generateType = GenerateType.automatic ∧ s.period = Period.monthly) then db
        else
          let w := monthlyPeriodWindow s sd (some b)
          let genOn := if s.generateOn = GenerateOn.start then w.startD else w.endD
          if s.generateOn = GenerateOn.stop ∧ today ≠ genOn then db
          else
            let startFirst := firstDayOfMonth w.startD
            if invoiceExists db bid startFirst then db
            else
              let base0 := b.monthlyRent + b.maintenanceAmount - b.discountAmount
                + b.securityDeposit
              let base := if base0 < 0 then 0 else base0
              let inv : Invoice :=
                { bookingId := bid
                  cycleMonth := startFirst
                  issueDate := today
                  dueDate := w.endD
                  amount := base
                  taxAmount := 0
                  discountAmount := 0
                  totalAmount := 0
                  balanceDue := 0
                  status := InvStatus.opened
                  notes := "" }
              saveNewInvoice b today inv db

/-- Tests the queryset filter `start_date isnull or start_date ≤ today`. -/
def optStartOnOrBefore (o : Option Date) (today : Date) : Bool :=
  match o with
  | none => true
  | some s => dateLeB s today

/-- Tests the queryset filter `end_date isnull or end_date ≥ today`. -/
def optEndOnOrAfter (o : Option Date) (today : Date) : Bool :=
  match o with
  | none => true
  | some e => dateLeB today e

/-- Embeds the loop body of `payment.tasks.generate_monthly_invoices` for one
booking, including the queryset filters that select it. -/
def generateMonthlyInvoiceForBooking (b : Booking) (bid : Nat)
    (settingsOpt : Option InvoiceSettings) (hasOwner : Bool) (today : Date)
    (db : List Invoice) : List Invoice :=
  if b.status ≠ BookingStatus.confirmed then db
  else if !(optStartOnOrBefore b.startDate today) then db
  else if !(optEndOnOrAfter b.endDate today) then db
  else if ¬hasOwner then db
  else if b.bookedAt = none then db
  else
    let s := settingsOpt.getD defaultInvoiceSettings
    if ¬(s.generateType = GenerateType.automatic ∧ s.period = Period.monthly) then db
    else
      let w := monthlyPeriodWindow s today (some b)
      if w.genOn ≠ today then db
      else
        let startFirst := firstDayOfMonth w.startD
        if invoiceExists db bid startFirst then db
        else
          let base0 := b.monthlyRent + b.maintenanceAmount - b.discountAmount
          let base := if base0 < 0 then 0 else base0
          let inv : Invoice :=
            { bookingId := bid
              cycleMonth := startFirst
              issueDate := today
              dueDate := w.endD
              amount := base
              taxAmount := 0
              discountAmount := 0
              totalAmount := 0
              balanceDue := 0
              status := InvStatus.opened
              notes := "" }
          saveNewInvoice b today inv db

/-- Zero-pad a natural to two digits, as in ISO date formatting. -/
def pad2 (n : Nat) : String :=
  if n < 10 then "0" ++ toString n else toString n

/-- ISO format of a date, as Python `date.isoformat`. -/
def dateIso (dt : Date) : String :=
  toString dt.y ++ "-" ++ pad2 dt.m ++ "-" ++ pad2 dt.d

/-- Matching predicate of the cancellation-voiding queryset: same booking,
draft or open status, cycle month at or after the first of the current
month. -/
def voidMatch (bid : Nat) (today : Date) (i : Invoice) : Bool :=
  decide (i.bookingId = bid)
    && (decide (i.status = InvStatus.draft) || decide (i.status = InvStatus.opened))
    && dateLeB (firstDayOfMonth today) i.cycleMonth

/-- Embeds `payment.signals.void_invoices_on_booking_cancel` for one booking
save event: only a transition into canceled voids the matching draft/open
rows from the current month onward and appends a note to them. -/
def voidInvoicesOnBookingCancel (b : Booking) (bid : Nat) (created : Bool)
    (oldStatus : Option BookingStatus) (today : Date) (db : List Invoice) :
    List Invoice :=
  if b.status ≠ BookingStatus.canceled then db
  else if created then db
  else
    match oldStatus with
    | none => db
    | some os =>
      if ¬(os ≠ b.status) then db
      else
        db.map (fun i =>
          if voidMatch bid today i then
            { i with
                status := InvStatus.void
                notes := i.notes ++ "\nAuto-voided due to booking cancellation on "
                  ++ dateIso today ++ "." }
          else i)

/-- Number of invoice rows for one booking and cycle month. -/
def countPair (db : List Invoice) (bid : Nat) (cm : Date) : Nat :=
  (db.filter (fun i => decide (i.bookingId = bid) && decide (i.cycleMonth = cm))).length

/-- Timezone-aware datetime under one fixed zone: day index and
microsecond-of-day, compared lexicographically. -/
structure DateTime where
  day : Int
  micro : Nat
  deriving DecidableEq, Repr

/-- Strict order on datetimes. -/
def dtLtB (a b : DateTime) : Bool :=
  if a.day < b.day then true
  else if b.day < a.day then false
  else decide (a.micro < b.micro)

/-- Microsecond-of-day of 23:59:59.999999, the end-of-day snap used by
`compute_period_end`. -/
def endOfDayMicro : Nat := 86399999999

/-- ASCII lowercase of a string, as Python `str.lower` on the inputs used
here. -/
def lowerStr (s : String) : String :=
  ⟨s.data.map Char.toLower⟩

/-- Embeds `subscription.utils.interval_days`: day codes like `30d`, legacy
aliases, month codes like `3m` at a fixed 28 days per month, fallback 28. -/
def intervalDays (code : Option String) : Nat :=
  match code with
  | none => 28
  | some raw =>
    if raw = "" then 28
    else
      let c := lowerStr raw.trim
      if c.endsWith "d" then
        match (c.dropRight 1).toInt? with
        | some n => max 1 n.toNat
        | none => 28
      else
        let c2 :=
          if c = "monthly" ∨ c = "month" ∨ c = "1mo" ∨ c = "1month" then "1m"
          else if c = "yearly" ∨ c = "annual" ∨ c = "annually" ∨ c = "12mo" ∨
              c = "12month" ∨ c = "12months" then "12m"
          else c
        if c2.endsWith "m" then
          let body := c2.dropRight 1
          let n := match (if body = "" then "1" else body).toInt? with
            | some k => k
            | none => 1
          (max 1 n.toNat) * 28
        else 28

/-- Embeds `subscription.utils.compute_period_end`: add the interval days to
the start, then snap to the end of that local day. -/
def computePeriodEnd (start : DateTime) (code : Option String) : DateTime :=
  ⟨start.day + intervalDays code, endOfDayMicro⟩

/-- Subscription row, restricted to the fields `subscription_is_valid`
reads. -/
structure Subscription where
  status : String
  billingInterval : String
  currentPeriodStart : Option DateTime
  currentPeriodEnd : Option DateTime
  deriving DecidableEq, Repr

/-- Embeds `subscription.utils.subscription_is_valid`: only a lowercased
status of exactly active passes, then the stored period end, or the period
end computed from the start, must lie strictly in the future; a missing
start with a missing end raises inside the guarded block and yields false. -/
def subscriptionIsValid (sub : Subscription) (now : DateTime) : Bool :=
  if lowerStr sub.status ≠ "active" then false
  else
    match sub.currentPeriodEnd with
    | some e => dtLtB now e
    | none =>
      match sub.currentPeriodStart with
      | some s => dtLtB now (computePeriodEnd s (some sub.billingInterval))
      | none => false

/-- Effective period end of a subscription: the stored value, else the value
computed from the period start and billing interval. -/
def effectivePeriodEnd (sub : Subscription) : Option DateTime :=
  match sub.currentPeriodEnd with
  | some e => some e
  | none =>
    match sub.currentPeriodStart with
    | some s => some (computePeriodEnd s (some sub.billingInterval))
    | none => none

/-- Validity predicate written from the words of claim C6: status in the set
of active and trialing, and the effective period end in the future. -/
def claimSubscriptionValid (sub : Subscription) (now : DateTime) : Bool :=
  (sub.status == "active" || sub.status == "trialing")
    && (match effectivePeriodEnd sub with
        | some e => dtLtB now e
        | none => false)

/-- Acceptance predicate written from the words of claim C5: creation
succeeds unless the booking is unconfirmed or unconfirmed-dated, the cycle
month falls before the confirmation month or after the month of the end date
or of today, a duplicate exists, the due date precedes the issue date, or
the discount exceeds subtotal plus tax. -/
def claimCreateAccepts (b : Booking) (today : Date) (inv : Invoice)
    (db : List Invoice) : Bool :=
  !((!(decide (b.status = BookingStatus.confirmed)) || decide (b.bookedAt = none))
    || (match b.bookedAt with
        | some conf => dateLtB inv.cycleMonth (firstDayOfMonth conf)
        | none => true)
    || dateLtB (firstDayOfMonth (upperBoundDate b today)) inv.cycleMonth
    || invoiceExists db inv.bookingId inv.cycleMonth
    || dateLtB inv.dueDate inv.issueDate
    || decide (inv.amount + inv.taxAmount < inv.discountAmount))

/-- Acceptance predicate of the amended claim C5: as `claimCreateAccepts`,
except the lower bound is the month of the derived cycle anchor, which
prefers the check-in anchor from the start date and falls back to the
confirmation date. -/
def amendedCreateAccepts (b : Booking) (today : Date) (inv : Invoice)
    (db : List Invoice) : Bool :=
  !((!(decide (b.status = BookingStatus.confirmed)) || decide (b.bookedAt = none))
    || (match deriveCycleAnchor b with
        | some anchor => dateLtB inv.cycleMonth (firstDayOfMonth anchor)
        | none => true)
    || dateLtB (firstDayOfMonth (upperBoundDate b today)) inv.cycleMonth
    || invoiceExists db inv.bookingId inv.cycleMonth
    || dateLtB inv.dueDate inv.issueDate
    || decide (inv.amount + inv.taxAmount < inv.discountAmount))

/-- Example booking of the specification scenario: confirmed on 2025-01-10
with check-in 2025-01-31, rent 10000, maintenance 500, deposit 5000. -/
def exampleBooking : Booking :=
  { status := BookingStatus.confirmed
    bookedAt := some ⟨2025, 1, 10⟩
    startDate := some ⟨2025, 1, 31⟩
    endDate := some ⟨2025, 3, 31⟩
    monthlyRent := 10000
    securityDeposit := 5000
    discountAmount := 0
    maintenanceAmount := 500 }

/-- First invoice row the on-confirm trigger creates for `exampleBooking`. -/
def exampleFirstInvoice : Invoice :=
  { bookingId := 5
    cycleMonth := ⟨2025, 1, 1⟩
    issueDate := ⟨2025, 1, 31⟩
    dueDate := ⟨2025, 2, 28⟩
    amount := 15500
    taxAmount := 0
    discountAmount := 0
    totalAmount := 15500
    balanceDue := 15500
    status := InvStatus.opened
    notes := "" }

/-- C1: payment application with a non-positive amount is a no-op; a
positive amount floors the balance at zero, marks the invoice paid on a zero
balance, demotes draft and open to partial on a nonzero balance, and leaves
any other status unchanged. -/
theorem apply_payment_amount_matches_spec (inv : Invoice) (a : Int) :
    (a ≤ 0 → applyPaymentAmount inv a = inv) ∧
    (0 < a →
      (applyPaymentAmount inv a).balanceDue = max (inv.balanceDue - a) 0 ∧
      ((applyPaymentAmount inv a).balanceDue = 0 →
        (applyPaymentAmount inv a).status = InvStatus.paid) ∧
      ((applyPaymentAmount inv a).balanceDue ≠ 0 →
        ((inv.status = InvStatus.draft ∨ inv.status = InvStatus.opened) →
          (applyPaymentAmount inv a).status = InvStatus.partialPaid) ∧
        (¬(inv.status = InvStatus.draft ∨ inv.status = InvStatus.opened) →
          (applyPaymentAmount inv a).status = inv.status))) := by
  constructor
  · intro h
    simp [applyPaymentAmount, h]
  · intro h
    have hna : ¬a ≤ 0 := by omega
    have hb : (applyPaymentAmount inv a).balanceDue = max (inv.balanceDue - a) 0 := by
      simp [applyPaymentAmount, hna]
    have hs : (applyPaymentAmount inv a).status =
        (if max (inv.balanceDue - a) 0 = 0 then InvStatus.paid
         else if inv.status = InvStatus.draft ∨ inv.status = InvStatus.opened then
           InvStatus.partialPaid
         else inv.status) := by
      simp [applyPaymentAmount, hna]
    refine ⟨hb, ?_, ?_⟩
    · intro h0
      rw [hb] at h0
      rw [hs, if_pos h0]
    · intro h0
      rw [hb] at h0
      constructor
      · intro hst
        rw [hs, if_neg h0, if_pos hst]
      · intro hst
        rw [hs, if_neg h0, if_neg hst]

/-- Witness for C1 at concrete inputs: a no-op for a negative amount and the
floored balance for a positive amount. -/
theorem apply_payment_amount_matches_spec_witness :
    (applyPaymentAmount
      { bookingId := 1, cycleMonth := ⟨2025, 1, 1⟩, issueDate := ⟨2025, 1, 31⟩,
        dueDate := ⟨2025, 2, 28⟩, amount := 15500, taxAmount := 0,
        discountAmount := 0, totalAmount := 15500, balanceDue := 15500,
        status := InvStatus.opened, notes := "" } (-5) =
      { bookingId := 1, cycleMonth := ⟨2025, 1, 1⟩, issueDate := ⟨2025, 1, 31⟩,
        dueDate := ⟨2025, 2, 28⟩, amount := 15500, taxAmount := 0,
        discountAmount := 0, totalAmount := 15500, balanceDue := 15500,
        status := InvStatus.opened, notes := "" }) ∧
    (applyPaymentAmount
      { bookingId := 1, cycleMonth := ⟨2025, 1, 1⟩, issueDate := ⟨2025, 1, 31⟩,
        dueDate := ⟨2025, 2, 28⟩, amount := 15500, taxAmount := 0,
        discountAmount := 0, totalAmount := 15500, balanceDue := 15500,
        status := InvStatus.opened, notes := "" } 500).balanceDue =
      max (15500 - 500) 0 :=
  ⟨(apply_payment_amount_matches_spec _ (-5)).1 (by decide),
    ((apply_payment_amount_matches_spec
      { bookingId := 1, cycleMonth := ⟨2025, 1, 1⟩, issueDate := ⟨2025, 1, 31⟩,
        dueDate := ⟨2025, 2, 28⟩, amount := 15500, taxAmount := 0,
        discountAmount := 0, totalAmount := 15500, balanceDue := 15500,
        status := InvStatus.opened, notes := "" } 500).2 (by decide)).1⟩

/-- C3: delta adjustment with a zero delta is a no-op; otherwise the balance
is floored at zero, a zero balance marks the invoice paid, a nonzero balance
demotes draft, open and paid to partial, and any other status is kept. -/
theorem adjust_payment_delta_matches_spec (inv : Invoice) (d : Int) :
    (d = 0 → adjustPaymentDelta inv d = inv) ∧
    (d ≠ 0 →
      (adjustPaymentDelta inv d).balanceDue = max (inv.balanceDue - d) 0 ∧
      ((adjustPaymentDelta inv d).balanceDue = 0 →
        (adjustPaymentDelta inv d).status = InvStatus.paid) ∧
      ((adjustPaymentDelta inv d).balanceDue ≠ 0 →
        ((inv.status = InvStatus.draft ∨ inv.status = InvStatus.opened ∨
            inv.status = InvStatus.paid) →
          (adjustPaymentDelta inv d).status = InvStatus.partialPaid) ∧
        (¬(inv.status = InvStatus.draft ∨ inv.status = InvStatus.opened ∨
            inv.status = InvStatus.paid) →
          (adjustPaymentDelta inv d).status = inv.status))) := by
  constructor
  · intro h
    simp [adjustPaymentDelta, h]
  · intro h
    have hb : (adjustPaymentDelta inv d).balanceDue = max (inv.balanceDue - d) 0 := by
      simp [adjustPaymentDelta, h]
    have hs : (adjustPaymentDelta inv d).status =
        (if max (inv.balanceDue - d) 0 = 0 then InvStatus.paid
         else if inv.status = InvStatus.draft ∨ inv.status = InvStatus.opened ∨
             inv.status = InvStatus.paid then
           InvStatus.partialPaid
         else inv.status) := by
      simp [adjustPaymentDelta, h]
    refine ⟨hb, ?_, ?_⟩
    · intro h0
      rw [hb] at h0
      rw [hs, if_pos h0]
    · intro h0
      rw [hb] at h0
      constructor
      · intro hst
        rw [hs, if_neg h0, if_pos hst]
      · intro hst
        rw [hs, if_neg h0, if_neg hst]

/-- Witness for C3 at concrete inputs: a no-op for a zero delta and the
restored balance for a negative delta. -/
theorem adjust_payment_delta_matches_spec_witness :
    (adjustPaymentDelta
      { bookingId := 2, cycleMonth := ⟨2025, 2, 1⟩, issueDate := ⟨2025, 2, 1⟩,
        dueDate := ⟨2025, 3, 1⟩, amount := 1000, taxAmount := 0,
        discountAmount := 0, totalAmount := 1000, balanceDue := 400,
        status := InvStatus.partialPaid, notes := "" } 0 =
      { bookingId := 2, cycleMonth := ⟨2025, 2, 1⟩, issueDate := ⟨2025, 2, 1⟩,
        dueDate := ⟨2025, 3, 1⟩, amount := 1000, taxAmount := 0,
        discountAmount := 0, totalAmount := 1000, balanceDue := 400,
        status := InvStatus.partialPaid, notes := "" }) ∧
    (adjustPaymentDelta
      { bookingId := 2, cycleMonth := ⟨2025, 2, 1⟩, issueDate := ⟨2025, 2, 1⟩,
        dueDate := ⟨2025, 3, 1⟩, amount := 1000, taxAmount := 0,
        discountAmount := 0, totalAmount := 1000, balanceDue := 400,
        status := InvStatus.partialPaid, notes := "" } (-300)).balanceDue =
      max (400 - (-300)) 0 :=
  ⟨(adjust_payment_delta_matches_spec _ 0).1 rfl,
    ((adjust_payment_delta_matches_spec
      { bookingId := 2, cycleMonth := ⟨2025, 2, 1⟩, issueDate := ⟨2025, 2, 1⟩,
        dueDate := ⟨2025, 3, 1⟩, amount := 1000, taxAmount := 0,
        discountAmount := 0, totalAmount := 1000, balanceDue := 400,
        status := InvStatus.partialPaid, notes := "" } (-300)).2
      (by decide)).1⟩

/-- Each single reconciliation step keeps the balance non-negative. -/
theorem runPayOp_balance_nonneg (inv : Invoice) (op : PayOp)
    (h : 0 ≤ inv.balanceDue) : 0 ≤ (runPayOp inv op).balanceDue := by
  cases op with
  | apply a =>
    simp only [runPayOp, applyPaymentAmount]
    split
    · exact h
    · simp [le_max_right]
  | adjust d =>
    simp only [runPayOp, adjustPaymentDelta]
    split
    · exact h
    · simp [le_max_right]

/-- Any reconciliation sequence keeps the balance non-negative. -/
theorem runPayOps_balance_nonneg (ops : List PayOp) (inv : Invoice)
    (h : 0 ≤ inv.balanceDue) : 0 ≤ (runPayOps inv ops).balanceDue := by
  induction ops generalizing inv with
  | nil => exact h
  | cons op rest ih =>
    have hstep := runPayOp_balance_nonneg inv op h
    simpa [runPayOps, List.foldl] using ih (runPayOp inv op) hstep

/-- C2: from a non-negative starting balance, every prefix of every sequence
of payment applications and delta adjustments leaves the balance
non-negative. -/
theorem balance_nonneg_after_every_call (inv : Invoice) (ops : List PayOp)
    (h : 0 ≤ inv.balanceDue) (n : Nat) :
    0 ≤ (runPayOps inv (ops.take n)).balanceDue :=
  runPayOps_balance_nonneg (ops.take n) inv h

/-- Witness for C2 at a concrete invoice and operation sequence, after the
second of three calls. -/
theorem balance_nonneg_after_every_call_witness :
    0 ≤ (runPayOps
      { bookingId := 3, cycleMonth := ⟨2025, 3, 1⟩, issueDate := ⟨2025, 3, 1⟩,
        dueDate := ⟨2025, 4, 1⟩, amount := 100, taxAmount := 0,
        discountAmount := 0, totalAmount := 100, balanceDue := 100,
        status := InvStatus.opened, notes := "" }
      ([PayOp.apply 40, PayOp.adjust (-500), PayOp.apply 1000].take 2)).balanceDue :=
  balance_nonneg_after_every_call _ _ (by decide) 2

/-- C10: every save recomputes the total as amount plus tax minus discount;
the balance is synchronized to the total only on insertion and untouched on
a save of an existing row. -/
theorem recalc_totals_matches_spec (inv : Invoice) (adding : Bool) :
    (recalcTotals inv adding).totalAmount =
      inv.amount + inv.taxAmount - inv.discountAmount ∧
    (adding = false → (recalcTotals inv adding).balanceDue = inv.balanceDue) ∧
    (adding = true →
      (recalcTotals inv adding).balanceDue = (recalcTotals inv adding).totalAmount) := by
  refine ⟨rfl, ?_, ?_⟩
  · intro h
    simp [recalcTotals, h]
  · intro h
    simp [recalcTotals, h]

/-- Counterexample to C8 as stated: with custom day 31 and the leap-year
reference date 2024-02-15 the window starts on Feb 29 as claimed, but its
end is Mar 29 — the same clamped day one month later — and neither Mar 28
nor Mar 31. -/
theorem monthly_custom_window_claim_counterexample :
    (monthlyPeriodWindow
      { generateType := GenerateType.automatic, period := Period.monthly,
        generateOn := GenerateOn.start, monthlyCycle := MonthlyCycle.customDay,
        monthlyCustomDay := some 31 } ⟨2024, 2, 15⟩ none).startD = ⟨2024, 2, 29⟩ ∧
    (monthlyPeriodWindow
      { generateType := GenerateType.automatic, period := Period.monthly,
        generateOn := GenerateOn.start, monthlyCycle := MonthlyCycle.customDay,
        monthlyCustomDay := some 31 } ⟨2024, 2, 15⟩ none).endD = ⟨2024, 3, 29⟩ ∧
    (monthlyPeriodWindow
      { generateType := GenerateType.automatic, period := Period.monthly,
        generateOn := GenerateOn.start, monthlyCycle := MonthlyCycle.customDay,
        monthlyCustomDay := some 31 } ⟨2024, 2, 15⟩ none).endD ≠ ⟨2024, 3, 28⟩ ∧
    (monthlyPeriodWindow
      { generateType := GenerateType.automatic, period := Period.monthly,
        generateOn := GenerateOn.start, monthlyCycle := MonthlyCycle.customDay,
        monthlyCustomDay := some 31 } ⟨2024, 2, 15⟩ none).endD ≠ ⟨2024, 3, 31⟩ := by
  refine ⟨by decide, by decide, by decide, by decide⟩

/-- C8 amended: with custom day 31, any February reference date yields a
window starting on the last day of February — Feb 28 in a common year and
Feb 29 in a leap year — and ending on the same clamped day one calendar
month later, Mar 28 or Mar 29 respectively. -/
theorem monthly_custom_window_february (g : GenerateType) (p : Period)
    (go : GenerateOn) (ref : Date) (booking : Option Booking)
    (href : ref.m = 2) :
    (monthlyPeriodWindow
      { generateType := g, period := p, generateOn := go,
        monthlyCycle := MonthlyCycle.customDay, monthlyCustomDay := some 31 }
      ref booking).startD = ⟨ref.y, 2, if isLeapYear ref.y then 29 else 28⟩ ∧
    (monthlyPeriodWindow
      { generateType := g, period := p, generateOn := go,
        monthlyCycle := MonthlyCycle.customDay, monthlyCustomDay := some 31 }
      ref booking).endD = ⟨ref.y, 3, if isLeapYear ref.y then 29 else 28⟩ ∧
    (monthlyPeriodWindow
      { generateType := g, period := p, generateOn := go,
        monthlyCycle := MonthlyCycle.customDay, monthlyCustomDay := some 31 }
      ref booking).endD =
      monthAdd (monthlyPeriodWindow
        { generateType := g, period := p, generateOn := go,
          monthlyCycle := MonthlyCycle.customDay, monthlyCustomDay := some 31 }
        ref booking).startD 1 := by
  cases hL : isLeapYear ref.y with
  | true =>
    refine ⟨?_, ?_, ?_⟩ <;>
      simp [monthlyPeriodWindow, calcMonthlyCustomWindow, customDayTruthy,
        clampDay, monthAdd, daysInMonth, href, hL]
  | false =>
    refine ⟨?_, ?_, ?_⟩ <;>
      simp [monthlyPeriodWindow, calcMonthlyCustomWindow, customDayTruthy,
        clampDay, monthAdd, daysInMonth, href, hL]

/-- Witness for C8 at the concrete common-year reference date 2023-02-10. -/
theorem monthly_custom_window_february_witness :
    (⟨(2023 : Nat), (2 : Nat), (10 : Nat)⟩ : Date).m = 2 ∧
    (monthlyPeriodWindow
      { generateType := GenerateType.automatic, period := Period.monthly,
        generateOn := GenerateOn.start, monthlyCycle := MonthlyCycle.customDay,
        monthlyCustomDay := some 31 } ⟨2023, 2, 10⟩ none).startD =
      ⟨2023, 2, if isLeapYear 2023 then 29 else 28⟩ :=
  ⟨rfl,
    (monthly_custom_window_february GenerateType.automatic Period.monthly
      GenerateOn.start ⟨2023, 2, 10⟩ none rfl).1⟩

/-- Counterexample to C6 as stated: a trialing subscription whose stored
period end lies in the future satisfies the claimed validity predicate, yet
`subscription_is_valid` returns false, since only an active status passes. -/
theorem subscription_is_valid_claim_counterexample :
    claimSubscriptionValid
      { status := "trialing", billingInterval := "1m",
        currentPeriodStart := some ⟨0, 0⟩,
        currentPeriodEnd := some ⟨100, 0⟩ } ⟨50, 0⟩ = true ∧
    subscriptionIsValid
      { status := "trialing", billingInterval := "1m",
        currentPeriodStart := some ⟨0, 0⟩,
        currentPeriodEnd := some ⟨100, 0⟩ } ⟨50, 0⟩ = false := by
  constructor
  · decide
  · decide

/-- C6 amended: the validity check passes exactly for a lowercased status of
active together with an effective period end, stored or computed from the
period start plus the billing interval, that lies strictly in the future. -/
theorem subscription_is_valid_matches_amended_spec (sub : Subscription)
    (now : DateTime) :
    subscriptionIsValid sub now =
      ((lowerStr sub.status == "active")
        && (match effectivePeriodEnd sub with
            | some e => dtLtB now e
            | none => false)) := by
  by_cases h : lowerStr sub.status = "active"
  · cases he : sub.currentPeriodEnd with
    | some e => simp [subscriptionIsValid, effectivePeriodEnd, h, he]
    | none =>
      cases hs : sub.currentPeriodStart with
      | some s => simp [subscriptionIsValid, effectivePeriodEnd, h, he, hs]
      | none => simp [subscriptionIsValid, effectivePeriodEnd, h, he, hs]
  · simp [subscriptionIsValid, h]

/-- Witness for C10 at a concrete row: an update keeps the stale balance
while the total changes. -/
theorem recalc_totals_matches_spec_witness :
    (recalcTotals
      { bookingId := 4, cycleMonth := ⟨2025, 4, 1⟩, issueDate := ⟨2025, 4, 1⟩,
        dueDate := ⟨2025, 5, 1⟩, amount := 900, taxAmount := 100,
        discountAmount := 50, totalAmount := 0, balanceDue := 777,
        status := InvStatus.opened, notes := "" } false).balanceDue = 777 :=
  (recalc_totals_matches_spec
    { bookingId := 4, cycleMonth := ⟨2025, 4, 1⟩, issueDate := ⟨2025, 4, 1⟩,
      dueDate := ⟨2025, 5, 1⟩, amount := 900, taxAmount := 100,
      discountAmount := 50, totalAmount := 0, balanceDue := 777,
      status := InvStatus.opened, notes := "" } false).2.1 rfl

/-- C9: on a booking transition into canceled, exactly the rows of that
booking with draft or open status and a cycle month at or after the first of
the current month become void; every other row — partial or paid in any
month, any status in a past month, overdue or already void, or another
booking — is returned entirely unchanged. -/
theorem void_invoices_on_cancel_scope (b : Booking) (bid : Nat)
    (os : BookingStatus) (today : Date) (db : List Invoice)
    (hc : b.status = BookingStatus.canceled)
    (hos : os ≠ BookingStatus.canceled) :
    ∀ (k : Nat) (i : Invoice), db.get? k = some i →
      ((i.bookingId = bid ∧
          (i.status = InvStatus.draft ∨ i.status = InvStatus.opened) ∧
          dateLeB (firstDayOfMonth today) i.cycleMonth = true →
        ∃ j, (voidInvoicesOnBookingCancel b bid false (some os) today db).get? k =
            some j ∧ j.status = InvStatus.void) ∧
       ((i.status = InvStatus.partialPaid ∨ i.status = InvStatus.paid ∨
          i.status = InvStatus.overdue ∨ i.status = InvStatus.void ∨
          dateLeB (firstDayOfMonth today) i.cycleMonth = false ∨
          i.bookingId ≠ bid) →
        (voidInvoicesOnBookingCancel b bid false (some os) today db).get? k =
          some i)) := by
  intro k i hk
  have hfired : voidInvoicesOnBookingCancel b bid false (some os) today db =
      db.map (fun i =>
        if voidMatch bid today i then
          { i with
              status := InvStatus.void
              notes := i.notes ++ "\nAuto-voided due to booking cancellation on "
                ++ dateIso today ++ "." }
        else i) := by
    simp only [voidInvoicesOnBookingCancel, hc]
    simp [hos]
  rw [hfired, List.get?_map, hk]
  constructor
  · intro ⟨hbid, hst, hcm⟩
    have hmatch : voidMatch bid today i = true := by
      rcases hst with h | h <;> simp [voidMatch, hbid, h, hcm]
    simp only [Option.map_some']
    refine ⟨_, rfl, ?_⟩
    simp [hmatch]
  · intro hcase
    have hmatch : voidMatch bid today i = false := by
      rcases hcase with h | h | h | h | h | h <;>
        simp [voidMatch, h]
    simp [hmatch]

/-- Witness for C9 on a concrete table: a current-month open invoice is
voided while a past-month open invoice of the same canceled booking keeps
its row. -/
theorem void_invoices_on_cancel_scope_witness :
    (∃ j, (voidInvoicesOnBookingCancel
        { status := BookingStatus.canceled, bookedAt := some ⟨2025, 1, 10⟩,
          startDate := some ⟨2025, 1, 31⟩, endDate := none, monthlyRent := 10000,
          securityDeposit := 5000, discountAmount := 0, maintenanceAmount := 500 }
        7 false (some BookingStatus.confirmed) ⟨2025, 2, 15⟩
        [{ bookingId := 7, cycleMonth := ⟨2025, 1, 1⟩, issueDate := ⟨2025, 1, 31⟩,
           dueDate := ⟨2025, 2, 28⟩, amount := 15500, taxAmount := 0,
           discountAmount := 0, totalAmount := 15500, balanceDue := 15500,
           status := InvStatus.opened, notes := "" },
         { bookingId := 7, cycleMonth := ⟨2025, 2, 1⟩, issueDate := ⟨2025, 2, 1⟩,
           dueDate := ⟨2025, 2, 28⟩, amount := 10500, taxAmount := 0,
           discountAmount := 0, totalAmount := 10500, balanceDue := 10500,
           status := InvStatus.opened, notes := "" }]).get? 1 = some j ∧
      j.status = InvStatus.void) ∧
    (voidInvoicesOnBookingCancel
        { status := BookingStatus.canceled, bookedAt := some ⟨2025, 1, 10⟩,
          startDate := some ⟨2025, 1, 31⟩, endDate := none, monthlyRent := 10000,
          securityDeposit := 5000, discountAmount := 0, maintenanceAmount := 500 }
        7 false (some BookingStatus.confirmed) ⟨2025, 2, 15⟩
        [{ bookingId := 7, cycleMonth := ⟨2025, 1, 1⟩, issueDate := ⟨2025, 1, 31⟩,
           dueDate := ⟨2025, 2, 28⟩, amount := 15500, taxAmount := 0,
           discountAmount := 0, totalAmount := 15500, balanceDue := 15500,
           status := InvStatus.opened, notes := "" },
         { bookingId := 7, cycleMonth := ⟨2025, 2, 1⟩, issueDate := ⟨2025, 2, 1⟩,
           dueDate := ⟨2025, 2, 28⟩, amount := 10500, taxAmount := 0,
           discountAmount := 0, totalAmount := 10500, balanceDue := 10500,
           status := InvStatus.opened, notes := "" }]).get? 0 =
      some { bookingId := 7, cycleMonth := ⟨2025, 1, 1⟩,
             issueDate := ⟨2025, 1, 31⟩, dueDate := ⟨2025, 2, 28⟩,
             amount := 15500, taxAmount := 0, discountAmount := 0,
             totalAmount := 15500, balanceDue := 15500,
             status := InvStatus.opened, notes := "" } :=
  ⟨(void_invoices_on_cancel_scope
      { status := BookingStatus.canceled, bookedAt := some ⟨2025, 1, 10⟩,
        startDate := some ⟨2025, 1, 31⟩, endDate := none, monthlyRent := 10000,
        securityDeposit := 5000, discountAmount := 0, maintenanceAmount := 500 }
      7 BookingStatus.confirmed ⟨2025, 2, 15⟩
      [{ bookingId := 7, cycleMonth := ⟨2025, 1, 1⟩, issueDate := ⟨2025, 1, 31⟩,
         dueDate := ⟨2025, 2, 28⟩, amount := 15500, taxAmount := 0,
         discountAmount := 0, totalAmount := 15500, balanceDue := 15500,
         status := InvStatus.opened, notes := "" },
       { bookingId := 7, cycleMonth := ⟨2025, 2, 1⟩, issueDate := ⟨2025, 2, 1⟩,
         dueDate := ⟨2025, 2, 28⟩, amount := 10500, taxAmount := 0,
         discountAmount := 0, totalAmount := 10500, balanceDue := 10500,
         status := InvStatus.opened, notes := "" }] rfl (by decide) 1 _ rfl).1
    (by refine ⟨rfl, Or.inr rfl, by decide⟩),
   (void_invoices_on_cancel_scope
      { status := BookingStatus.canceled, bookedAt := some ⟨2025, 1, 10⟩,
        startDate := some ⟨2025, 1, 31⟩, endDate := none, monthlyRent := 10000,
        securityDeposit := 5000, discountAmount := 0, maintenanceAmount := 500 }
      7 BookingStatus.confirmed ⟨2025, 2, 15⟩
      [{ bookingId := 7, cycleMonth := ⟨2025, 1, 1⟩, issueDate := ⟨2025, 1, 31⟩,
         dueDate := ⟨2025, 2, 28⟩, amount := 15500, taxAmount := 0,
         discountAmount := 0, totalAmount := 15500, balanceDue := 15500,
         status := InvStatus.opened, notes := "" },
       { bookingId := 7, cycleMonth := ⟨2025, 2, 1⟩, issueDate := ⟨2025, 2, 1⟩,
         dueDate := ⟨2025, 2, 28⟩, amount := 10500, taxAmount := 0,
         discountAmount := 0, totalAmount := 10500, balanceDue := 10500,
         status := InvStatus.opened, notes := "" }] rfl (by decide) 0 _ rfl).2
    (by exact Or.inr (Or.inr (Or.inr (Or.inr (Or.inl (by decide))))))⟩

/-- Counterexample to C5 as stated: a booking confirmed on 2025-01-10 whose
check-in date is 2025-03-15 rejects the cycle month 2025-02-01 — the lower
bound is the month of the start-date-derived anchor, not the confirmation
month — while every condition of the claim is satisfied. -/
theorem invoice_create_claim_counterexample :
    claimCreateAccepts
      { status := BookingStatus.confirmed, bookedAt := some ⟨2025, 1, 10⟩,
        startDate := some ⟨2025, 3, 15⟩, endDate := some ⟨2025, 12, 31⟩,
        monthlyRent := 0, securityDeposit := 0, discountAmount := 0,
        maintenanceAmount := 0 } ⟨2025, 6, 1⟩
      { bookingId := 1, cycleMonth := ⟨2025, 2, 1⟩, issueDate := ⟨2025, 3, 1⟩,
        dueDate := ⟨2025, 3, 10⟩, amount := 0, taxAmount := 0,
        discountAmount := 0, totalAmount := 0, balanceDue := 0,
        status := InvStatus.draft, notes := "" } [] = true ∧
    invoiceCleanOk
      { status := BookingStatus.confirmed, bookedAt := some ⟨2025, 1, 10⟩,
        startDate := some ⟨2025, 3, 15⟩, endDate := some ⟨2025, 12, 31⟩,
        monthlyRent := 0, securityDeposit := 0, discountAmount := 0,
        maintenanceAmount := 0 } ⟨2025, 6, 1⟩
      { bookingId := 1, cycleMonth := ⟨2025, 2, 1⟩, issueDate := ⟨2025, 3, 1⟩,
        dueDate := ⟨2025, 3, 10⟩, amount := 0, taxAmount := 0,
        discountAmount := 0, totalAmount := 0, balanceDue := 0,
        status := InvStatus.draft, notes := "" } [] = false := by
  constructor
  · decide
  · decide

/-- C5 amended: invoice creation passes validation exactly when the booking
is confirmed with a confirmation date, the first-of-month cycle month is not
before the month of the derived cycle anchor — the check-in-derived anchor
when a start date exists, else the confirmation date — and not after the
month of the end date or of today, no duplicate row exists for the booking
and cycle month, the due date is not before the issue date, and the discount
does not exceed subtotal plus tax. -/
theorem invoice_clean_matches_amended_claim (b : Booking) (today : Date)
    (inv : Invoice) (db : List Invoice) :
    invoiceCleanOk b today inv db = amendedCreateAccepts b today inv db := by
  by_cases hst : b.status = BookingStatus.confirmed
  · cases hba : b.bookedAt with
    | none => simp [invoiceCleanOk, amendedCreateAccepts, hst, hba]
    | some conf =>
      cases hanch : deriveCycleAnchor b with
      | none => simp [invoiceCleanOk, amendedCreateAccepts, hst, hba, hanch]
      | some anchor =>
        simp only [invoiceCleanOk, amendedCreateAccepts, hst, hba, hanch]
        cases h1 : dateLtB inv.cycleMonth (firstDayOfMonth anchor) <;>
        cases h2 : dateLtB (firstDayOfMonth (upperBoundDate b today)) inv.cycleMonth <;>
        cases h3 : invoiceExists db inv.bookingId inv.cycleMonth <;>
        cases h4 : dateLtB inv.dueDate inv.issueDate <;>
        cases h5 : decide (inv.amount + inv.taxAmount < inv.discountAmount) <;>
        simp [h1, h2, h3, h4, h5]
  · simp [invoiceCleanOk, amendedCreateAccepts, hst]

/-- Floor-at-zero conditional written by both triggers equals a max. -/
theorem ite_lt_zero_eq_max (x : Int) : (if x < 0 then 0 else x) = max x 0 := by
  rcases lt_or_le x 0 with h | h
  · rw [if_pos h, max_eq_right (le_of_lt h)]
  · rw [if_neg (not_lt.mpr h), max_eq_left h]

/-- Saving a fresh invoice either rejects, leaving the table unchanged, or
appends exactly the normalized recomputed row. -/
theorem saveNewInvoice_eq_or_append (b : Booking) (today : Date) (inv : Invoice)
    (db : List Invoice) :
    saveNewInvoice b today inv db = db ∨
    saveNewInvoice b today inv db =
      db ++ [recalcTotals { inv with cycleMonth := firstDayOfMonth inv.cycleMonth } true] := by
  by_cases hcl : invoiceCleanOk b today
      (recalcTotals { inv with cycleMonth := firstDayOfMonth inv.cycleMonth } true) db = true
  · right
    simp [saveNewInvoice, hcl]
  · left
    simp [saveNewInvoice, hcl]

/-- A table extended by a matching row satisfies the duplicate check. -/
theorem invoiceExists_append_match (db : List Invoice) (j : Invoice) (bid : Nat)
    (cm : Date) (hb : j.bookingId = bid) (hc : j.cycleMonth = cm) :
    invoiceExists (db ++ [j]) bid cm = true := by
  simp [invoiceExists, List.any_append, hb, hc]

/-- The exists-guarded create step of both generation triggers is idempotent
whenever the candidate row targets the guarded pair. -/
theorem createStep_idem (b : Booking) (today : Date) (bid : Nat) (cm : Date)
    (inv : Invoice) (db : List Invoice)
    (hbid : inv.bookingId = bid) (hcm : firstDayOfMonth inv.cycleMonth = cm) :
    (if invoiceExists
        (if invoiceExists db bid cm then db else saveNewInvoice b today inv db)
        bid cm = true then
      (if invoiceExists db bid cm then db else saveNewInvoice b today inv db)
     else saveNewInvoice b today inv
        (if invoiceExists db bid cm then db else saveNewInvoice b today inv db)) =
      (if invoiceExists db bid cm then db else saveNewInvoice b today inv db) := by
  cases hex : invoiceExists db bid cm with
  | true => simp [hex]
  | false =>
    simp only [Bool.false_eq_true, if_false, ite_false]
    rcases saveNewInvoice_eq_or_append b today inv db with hr | hr
    · rw [hr, hex]
      simp only [Bool.false_eq_true, if_false, ite_false]
      exact hr
    · rw [hr]
      have hex2 : invoiceExists
          (db ++ [recalcTotals { inv with cycleMonth := firstDayOfMonth inv.cycleMonth } true])
          bid cm = true := by
        refine invoiceExists_append_match _ _ _ _ ?_ ?_
        · simpa [recalcTotals] using hbid
        · simpa [recalcTotals] using hcm
      rw [hex2]
      simp

/-- Structure of one on-confirm trigger run: the table is returned unchanged,
or exactly one row is appended carrying the first-invoice fields of the
check-in window. -/
theorem createFirstInvoiceOnConfirm_shape (b : Booking) (bid : Nat)
    (so : Option InvoiceSettings) (ho c : Bool) (os : Option BookingStatus)
    (today : Date) (db : List Invoice) :
    createFirstInvoiceOnConfirm b bid so ho c os today db = db ∨
    ∃ sd, b.startDate = some sd ∧
      ∃ j, createFirstInvoiceOnConfirm b bid so ho c os today db = db ++ [j] ∧
        j.bookingId = bid ∧
        j.cycleMonth = firstDayOfMonth
          (monthlyPeriodWindow (so.getD defaultInvoiceSettings) sd (some b)).startD ∧
        j.amount = max (b.monthlyRent + b.maintenanceAmount - b.discountAmount
          + b.securityDeposit) 0 ∧
        j.dueDate = (monthlyPeriodWindow (so.getD defaultInvoiceSettings) sd (some b)).endD ∧
        j.status = InvStatus.opened := by
  by_cases h1 : b.status = BookingStatus.confirmed
  · cases h2 : (!c && !statusTransitioned os BookingStatus.confirmed) with
    | true =>
      left
      simp [createFirstInvoiceOnConfirm, h1, h2]
    | false =>
      cases hsd : b.startDate with
      | none =>
        left
        simp [createFirstInvoiceOnConfirm, h1, h2, hsd]
      | some sd =>
        cases ho with
        | false =>
          left
          simp [createFirstInvoiceOnConfirm, h1, h2, hsd]
        | true =>
          by_cases h4 : (so.getD defaultInvoiceSettings).generateType = GenerateType.automatic ∧
              (so.getD defaultInvoiceSettings).period = Period.monthly
          · by_cases h5 : (so.getD defaultInvoiceSettings).generateOn = GenerateOn.stop ∧
                today ≠ (if (so.getD defaultInvoiceSettings).generateOn = GenerateOn.start
                  then (monthlyPeriodWindow (so.getD defaultInvoiceSettings) sd (some b)).startD
                  else (monthlyPeriodWindow (so.getD defaultInvoiceSettings) sd (some b)).endD)
            · left
              have h5b : today ≠
                  (monthlyPeriodWindow (so.getD defaultInvoiceSettings) sd (some b)).endD := by
                simpa [h5.1] using h5.2
              simp [createFirstInvoiceOnConfirm, h1, h2, hsd, h4, h5.1, h5b]
            · cases hex : invoiceExists db bid (firstDayOfMonth
                  (monthlyPeriodWindow (so.getD defaultInvoiceSettings) sd (some b)).startD) with
              | true =>
                left
                simp [createFirstInvoiceOnConfirm, h1, h2, hsd, h4, h5, hex]
              | false =>
                have hred : createFirstInvoiceOnConfirm b bid so true c os today db =
                    saveNewInvoice b today
                      { bookingId := bid
                        cycleMonth := firstDayOfMonth
                          (monthlyPeriodWindow (so.getD defaultInvoiceSettings) sd (some b)).startD
                        issueDate := today
                        dueDate :=
                          (monthlyPeriodWindow (so.getD defaultInvoiceSettings) sd (some b)).endD
                        amount := if b.monthlyRent + b.maintenanceAmount - b.discountAmount
                            + b.securityDeposit < 0 then 0
                          else b.monthlyRent + b.maintenanceAmount - b.discountAmount
                            + b.securityDeposit
                        taxAmount := 0
                        discountAmount := 0
                        totalAmount := 0
                        balanceDue := 0
                        status := InvStatus.opened
                        notes := "" } db := by
                  simp [createFirstInvoiceOnConfirm, h1, h2, hsd, h4, h5, hex]
                rcases saveNewInvoice_eq_or_append b today
                    { bookingId := bid
                      cycleMonth := firstDayOfMonth
                        (monthlyPeriodWindow (so.getD defaultInvoiceSettings) sd (some b)).startD
                      issueDate := today
                      dueDate :=
                        (monthlyPeriodWindow (so.getD defaultInvoiceSettings) sd (some b)).endD
                      amount := if b.monthlyRent + b.maintenanceAmount - b.discountAmount
                          + b.securityDeposit < 0 then 0
                        else b.monthlyRent + b.maintenanceAmount - b.discountAmount
                          + b.securityDeposit
                      taxAmount := 0
                      discountAmount := 0
                      totalAmount := 0
                      balanceDue := 0
                      status := InvStatus.opened
                      notes := "" } db with hr | hr
                · left
                  rw [hred, hr]
                · right
                  refine ⟨sd, rfl, _, by rw [hred, hr], ?_, ?_, ?_, ?_, ?_⟩
                  · simp [recalcTotals]
                  · simp [recalcTotals, firstDayOfMonth]
                  · simp only [recalcTotals]
                    exact ite_lt_zero_eq_max _
                  · simp [recalcTotals]
                  · simp [recalcTotals]
          · left
            simp [createFirstInvoiceOnConfirm, h1, h2, hsd, h4]
  · left
    simp [createFirstInvoiceOnConfirm, h1]

/-- Running the on-confirm trigger twice is the same as running it once: the
second run finds the row inserted by the first and creates nothing. -/
theorem createFirstInvoiceOnConfirm_idem (b : Booking) (bid : Nat)
    (so : Option InvoiceSettings) (ho c : Bool) (os : Option BookingStatus)
    (today : Date) (db : List Invoice) :
    createFirstInvoiceOnConfirm b bid so ho c os today
      (createFirstInvoiceOnConfirm b bid so ho c os today db) =
    createFirstInvoiceOnConfirm b bid so ho c os today db := by
  by_cases h1 : b.status = BookingStatus.confirmed
  · cases h2 : (!c && !statusTransitioned os BookingStatus.confirmed) with
    | true => simp [createFirstInvoiceOnConfirm, h1, h2]
    | false =>
      cases hsd : b.startDate with
      | none => simp [createFirstInvoiceOnConfirm, h1, h2, hsd]
      | some sd =>
        cases ho with
        | false => simp [createFirstInvoiceOnConfirm, h1, h2, hsd]
        | true =>
          by_cases h4 : (so.getD defaultInvoiceSettings).generateType = GenerateType.automatic ∧
              (so.getD defaultInvoiceSettings).period = Period.monthly
          · by_cases h5 : (so.getD defaultInvoiceSettings).generateOn = GenerateOn.stop ∧
                today ≠ (if (so.getD defaultInvoiceSettings).generateOn = GenerateOn.start
                  then (monthlyPeriodWindow (so.getD defaultInvoiceSettings) sd (some b)).startD
                  else (monthlyPeriodWindow (so.getD defaultInvoiceSettings) sd (some b)).endD)
            · have h5b : today ≠
                  (monthlyPeriodWindow (so.getD defaultInvoiceSettings) sd (some b)).endD := by
                simpa [h5.1] using h5.2
              simp [createFirstInvoiceOnConfirm, h1, h2, hsd, h4, h5.1, h5b]
            · have hred : ∀ X : List Invoice,
                  createFirstInvoiceOnConfirm b bid so true c os today X =
                  if invoiceExists X bid (firstDayOfMonth
                      (monthlyPeriodWindow (so.getD defaultInvoiceSettings) sd
                        (some b)).startD) = true then X
                  else saveNewInvoice b today
                    { bookingId := bid
                      cycleMonth := firstDayOfMonth
                        (monthlyPeriodWindow (so.getD defaultInvoiceSettings) sd (some b)).startD
                      issueDate := today
                      dueDate :=
                        (monthlyPeriodWindow (so.getD defaultInvoiceSettings) sd (some b)).endD
                      amount := if b.monthlyRent + b.maintenanceAmount - b.discountAmount
                          + b.securityDeposit < 0 then 0
                        else b.monthlyRent + b.maintenanceAmount - b.discountAmount
                          + b.securityDeposit
                      taxAmount := 0
                      discountAmount := 0
                      totalAmount := 0
                      balanceDue := 0
                      status := InvStatus.opened
                      notes := "" } X := by
                intro X
                simp [createFirstInvoiceOnConfirm, h1, h2, hsd, h4, h5]
              rw [hred, hred]
              exact createStep_idem b today bid _ _ db rfl rfl
          · simp [createFirstInvoiceOnConfirm, h1, h2, hsd, h4]
  · simp [createFirstInvoiceOnConfirm, h1]

/-- Structure of one recurring-sweep run for one booking: the table is
returned unchanged, or exactly one row is appended with the recurring
amount, which omits the security deposit. -/
theorem generateMonthlyInvoiceForBooking_shape (b : Booking) (bid : Nat)
    (so : Option InvoiceSettings) (ho : Bool) (today : Date) (db : List Invoice) :
    generateMonthlyInvoiceForBooking b bid so ho today db = db ∨
    ∃ j, generateMonthlyInvoiceForBooking b bid so ho today db = db ++ [j] ∧
      j.bookingId = bid ∧
      j.cycleMonth = firstDayOfMonth
        (monthlyPeriodWindow (so.getD defaultInvoiceSettings) today (some b)).startD ∧
      j.amount = max (b.monthlyRent + b.maintenanceAmount - b.discountAmount) 0 ∧
      j.dueDate = (monthlyPeriodWindow (so.getD defaultInvoiceSettings) today (some b)).endD ∧
      j.status = InvStatus.opened := by
  by_cases h1 : b.status = BookingStatus.confirmed
  · cases h2 : optStartOnOrBefore b.startDate today with
    | false =>
      left
      simp [generateMonthlyInvoiceForBooking, h1, h2]
    | true =>
      cases h3 : optEndOnOrAfter b.endDate today with
      | false =>
        left
        simp [generateMonthlyInvoiceForBooking, h1, h2, h3]
      | true =>
        cases ho with
        | false =>
          left
          simp [generateMonthlyInvoiceForBooking, h1, h2, h3]
        | true =>
          by_cases hba : b.bookedAt = none
          · left
            simp [generateMonthlyInvoiceForBooking, h1, h2, h3, hba]
          · by_cases h4 : (so.getD defaultInvoiceSettings).generateType =
                GenerateType.automatic ∧
                (so.getD defaultInvoiceSettings).period = Period.monthly
            · by_cases h7 : (monthlyPeriodWindow (so.getD defaultInvoiceSettings) today
                  (some b)).genOn = today
              · cases hex : invoiceExists db bid (firstDayOfMonth
                    (monthlyPeriodWindow (so.getD defaultInvoiceSettings) today
                      (some b)).startD) with
                | true =>
                  left
                  simp [generateMonthlyInvoiceForBooking, h1, h2, h3, hba, h4, h7, hex]
                | false =>
                  have hred : generateMonthlyInvoiceForBooking b bid so true today db =
                      saveNewInvoice b today
                        { bookingId := bid
                          cycleMonth := firstDayOfMonth
                            (monthlyPeriodWindow (so.getD defaultInvoiceSettings) today
                              (some b)).startD
                          issueDate := today
                          dueDate := (monthlyPeriodWindow (so.getD defaultInvoiceSettings)
                            today (some b)).endD
                          amount := if b.monthlyRent + b.maintenanceAmount
                              - b.discountAmount < 0 then 0
                            else b.monthlyRent + b.maintenanceAmount - b.discountAmount
                          taxAmount := 0
                          discountAmount := 0
                          totalAmount := 0
                          balanceDue := 0
                          status := InvStatus.opened
                          notes := "" } db := by
                    simp [generateMonthlyInvoiceForBooking, h1, h2, h3, hba, h4, h7, hex]
                  rcases saveNewInvoice_eq_or_append b today
                      { bookingId := bid
                        cycleMonth := firstDayOfMonth
                          (monthlyPeriodWindow (so.getD defaultInvoiceSettings) today
                            (some b)).startD
                        issueDate := today
                        dueDate := (monthlyPeriodWindow (so.getD defaultInvoiceSettings)
                          today (some b)).endD
                        amount := if b.monthlyRent + b.maintenanceAmount
                            - b.discountAmount < 0 then 0
                          else b.monthlyRent + b.maintenanceAmount - b.discountAmount
                        taxAmount := 0
                        discountAmount := 0
                        totalAmount := 0
                        balanceDue := 0
                        status := InvStatus.opened
                        notes := "" } db with hr | hr
                  · left
                    rw [hred, hr]
                  · right
                    refine ⟨_, by rw [hred, hr], ?_, ?_, ?_, ?_, ?_⟩
                    · simp [recalcTotals]
                    · simp [recalcTotals, firstDayOfMonth]
                    · simp only [recalcTotals]
                      exact ite_lt_zero_eq_max _
                    · simp [recalcTotals]
                    · simp [recalcTotals]
              · left
                simp [generateMonthlyInvoiceForBooking, h1, h2, h3, hba, h4, h7]
            · left
              simp [generateMonthlyInvoiceForBooking, h1, h2, h3, hba, h4]
  · left
    simp [generateMonthlyInvoiceForBooking, h1]

/-- Running the recurring sweep twice for one booking is the same as running
it once: the second run finds the row inserted by the first and creates
nothing. -/
theorem generateMonthlyInvoiceForBooking_idem (b : Booking) (bid : Nat)
    (so : Option InvoiceSettings) (ho : Bool) (today : Date) (db : List Invoice) :
    generateMonthlyInvoiceForBooking b bid so ho today
      (generateMonthlyInvoiceForBooking b bid so ho today db) =
    generateMonthlyInvoiceForBooking b bid so ho today db := by
  by_cases h1 : b.status = BookingStatus.confirmed
  · cases h2 : optStartOnOrBefore b.startDate today with
    | false => simp [generateMonthlyInvoiceForBooking, h1, h2]
    | true =>
      cases h3 : optEndOnOrAfter b.endDate today with
      | false => simp [generateMonthlyInvoiceForBooking, h1, h2, h3]
      | true =>
        cases ho with
        | false => simp [generateMonthlyInvoiceForBooking, h1, h2, h3]
        | true =>
          by_cases hba : b.bookedAt = none
          · simp [generateMonthlyInvoiceForBooking, h1, h2, h3, hba]
          · by_cases h4 : (so.getD defaultInvoiceSettings).generateType =
                GenerateType.automatic ∧
                (so.getD defaultInvoiceSettings).period = Period.monthly
            · by_cases h7 : (monthlyPeriodWindow (so.getD defaultInvoiceSettings) today
                  (some b)).genOn = today
              · have hred : ∀ X : List Invoice,
                    generateMonthlyInvoiceForBooking b bid so true today X =
                    if invoiceExists X bid (firstDayOfMonth
                        (monthlyPeriodWindow (so.getD defaultInvoiceSettings) today
                          (some b)).startD) = true then X
                    else saveNewInvoice b today
                      { bookingId := bid
                        cycleMonth := firstDayOfMonth
                          (monthlyPeriodWindow (so.getD defaultInvoiceSettings) today
                            (some b)).startD
                        issueDate := today
                        dueDate := (monthlyPeriodWindow (so.getD defaultInvoiceSettings)
                          today (some b)).endD
                        amount := if b.monthlyRent + b.maintenanceAmount
                            - b.discountAmount < 0 then 0
                          else b.monthlyRent + b.maintenanceAmount - b.discountAmount
                        taxAmount := 0
                        discountAmount := 0
                        totalAmount := 0
                        balanceDue := 0
                        status := InvStatus.opened
                        notes := "" } X := by
                  intro X
                  simp [generateMonthlyInvoiceForBooking, h1, h2, h3, hba, h4, h7]
                rw [hred, hred]
                exact createStep_idem b today bid _ _ db rfl rfl
              · simp [generateMonthlyInvoiceForBooking, h1, h2, h3, hba, h4, h7]
            · simp [generateMonthlyInvoiceForBooking, h1, h2, h3, hba, h4]
  · simp [generateMonthlyInvoiceForBooking, h1]

/-- Appending one row raises the count of any pair by at most one. -/
theorem countPair_append_le (db : List Invoice) (j : Invoice) (bid : Nat)
    (cm : Date) :
    countPair (db ++ [j]) bid cm ≤ countPair db bid cm + 1 := by
  unfold countPair
  rw [List.filter_append, List.length_append]
  have h : (List.filter (fun i => decide (i.bookingId = bid) &&
      decide (i.cycleMonth = cm)) [j]).length ≤ 1 := by
    simp only [List.filter]
    split <;> simp
  omega

/-- C4: each generation entry point — the on-confirm trigger and the
recurring sweep — run twice on identical inputs equals one run, the second
run finding the row of the first and creating nothing; and from a table
holding no row for a pair, two runs leave at most one row for that pair. -/
theorem generation_idempotent_and_unique (b : Booking) (bid : Nat)
    (so : Option InvoiceSettings) (ho c : Bool) (os : Option BookingStatus)
    (today : Date) (db : List Invoice) (qbid : Nat) (qcm : Date) :
    (createFirstInvoiceOnConfirm b bid so ho c os today
        (createFirstInvoiceOnConfirm b bid so ho c os today db) =
      createFirstInvoiceOnConfirm b bid so ho c os today db) ∧
    (generateMonthlyInvoiceForBooking b bid so ho today
        (generateMonthlyInvoiceForBooking b bid so ho today db) =
      generateMonthlyInvoiceForBooking b bid so ho today db) ∧
    (countPair db qbid qcm = 0 →
      countPair (createFirstInvoiceOnConfirm b bid so ho c os today
        (createFirstInvoiceOnConfirm b bid so ho c os today db)) qbid qcm ≤ 1 ∧
      countPair (generateMonthlyInvoiceForBooking b bid so ho today
        (generateMonthlyInvoiceForBooking b bid so ho today db)) qbid qcm ≤ 1) := by
  refine ⟨createFirstInvoiceOnConfirm_idem b bid so ho c os today db,
    generateMonthlyInvoiceForBooking_idem b bid so ho today db,
    fun h0 => ⟨?_, ?_⟩⟩
  · rw [createFirstInvoiceOnConfirm_idem b bid so ho c os today db]
    rcases createFirstInvoiceOnConfirm_shape b bid so ho c os today db with
      h | ⟨sd, hsd, j, hj, hrest⟩
    · rw [h]
      omega
    · rw [hj]
      have hle := countPair_append_le db j qbid qcm
      omega
  · rw [generateMonthlyInvoiceForBooking_idem b bid so ho today db]
    rcases generateMonthlyInvoiceForBooking_shape b bid so ho today db with
      h | ⟨j, hj, hrest⟩
    · rw [h]
      omega
    · rw [hj]
      have hle := countPair_append_le db j qbid qcm
      omega

/-- Witness for C4 on a concrete booking against an empty table. -/
theorem generation_idempotent_and_unique_witness :
    countPair
      (createFirstInvoiceOnConfirm
        { status := BookingStatus.confirmed, bookedAt := some ⟨2025, 1, 10⟩,
          startDate := some ⟨2025, 1, 31⟩, endDate := some ⟨2025, 3, 31⟩,
          monthlyRent := 10000, securityDeposit := 5000, discountAmount := 0,
          maintenanceAmount := 500 } 5 none true true none ⟨2025, 1, 31⟩
        (createFirstInvoiceOnConfirm
          { status := BookingStatus.confirmed, bookedAt := some ⟨2025, 1, 10⟩,
            startDate := some ⟨2025, 1, 31⟩, endDate := some ⟨2025, 3, 31⟩,
            monthlyRent := 10000, securityDeposit := 5000, discountAmount := 0,
            maintenanceAmount := 500 } 5 none true true none ⟨2025, 1, 31⟩ []))
      5 ⟨2025, 1, 1⟩ ≤ 1 ∧
    countPair
      (generateMonthlyInvoiceForBooking
        { status := BookingStatus.confirmed, bookedAt := some ⟨2025, 1, 10⟩,
          startDate := some ⟨2025, 1, 31⟩, endDate := some ⟨2025, 3, 31⟩,
          monthlyRent := 10000, securityDeposit := 5000, discountAmount := 0,
          maintenanceAmount := 500 } 5 none true ⟨2025, 1, 31⟩
        (generateMonthlyInvoiceForBooking
          { status := BookingStatus.confirmed, bookedAt := some ⟨2025, 1, 10⟩,
            startDate := some ⟨2025, 1, 31⟩, endDate := some ⟨2025, 3, 31⟩,
            monthlyRent := 10000, securityDeposit := 5000, discountAmount := 0,
            maintenanceAmount := 500 } 5 none true ⟨2025, 1, 31⟩ []))
      5 ⟨2025, 1, 1⟩ ≤ 1 :=
  (generation_idempotent_and_unique
    { status := BookingStatus.confirmed, bookedAt := some ⟨2025, 1, 10⟩,
      startDate := some ⟨2025, 1, 31⟩, endDate := some ⟨2025, 3, 31⟩,
      monthlyRent := 10000, securityDeposit := 5000, discountAmount := 0,
      maintenanceAmount := 500 } 5 none true true none ⟨2025, 1, 31⟩ []
    5 ⟨2025, 1, 1⟩).2.2 (by decide)

/-- C7: every row created by the on-confirm trigger carries the
first-invoice amount of rent plus maintenance minus discount plus security
deposit floored at zero, a due date equal to the window end, and an initial
open status; every row created by the recurring sweep carries the recurring
amount of rent plus maintenance minus discount floored at zero, with no
security deposit. -/
theorem invoice_amounts_by_trigger (b : Booking) (bid : Nat)
    (so : Option InvoiceSettings) (ho c : Bool) (os : Option BookingStatus)
    (today : Date) (db : List Invoice) :
    (∀ i, i ∈ createFirstInvoiceOnConfirm b bid so ho c os today db →
      i ∈ db ∨
      ∃ sd, b.startDate = some sd ∧
        i.amount = max (b.monthlyRent + b.maintenanceAmount - b.discountAmount
          + b.securityDeposit) 0 ∧
        i.dueDate = (monthlyPeriodWindow (so.getD defaultInvoiceSettings) sd
          (some b)).endD ∧
        i.status = InvStatus.opened) ∧
    (∀ i, i ∈ generateMonthlyInvoiceForBooking b bid so ho today db →
      i ∈ db ∨
      (i.amount = max (b.monthlyRent + b.maintenanceAmount - b.discountAmount) 0 ∧
        i.status = InvStatus.opened)) := by
  constructor
  · intro i hi
    rcases createFirstInvoiceOnConfirm_shape b bid so ho c os today db with
      h | ⟨sd, hsd, j, hj, hjb, hjc, hja, hjd, hjs⟩
    · rw [h] at hi
      exact Or.inl hi
    · rw [hj] at hi
      rcases List.mem_append.mp hi with hmem | hmem
      · exact Or.inl hmem
      · have heq : i = j := by simpa using hmem
        subst heq
        exact Or.inr ⟨sd, hsd, hja, hjd, hjs⟩
  · intro i hi
    rcases generateMonthlyInvoiceForBooking_shape b bid so ho today db with
      h | ⟨j, hj, hjb, hjc, hja, hjd, hjs⟩
    · rw [h] at hi
      exact Or.inl hi
    · rw [hj] at hi
      rcases List.mem_append.mp hi with hmem | hmem
      · exact Or.inl hmem
      · have heq : i = j := by simpa using hmem
        subst heq
        exact Or.inr ⟨hja, hjs⟩

/-- Witness for C7: the first invoice of the example booking confirmed with
check-in 2025-01-31 is created with amount 15500 and open status. -/
theorem invoice_amounts_by_trigger_witness :
    exampleFirstInvoice ∈
      createFirstInvoiceOnConfirm exampleBooking 5 none true true none
        ⟨2025, 1, 31⟩ [] ∧
    (exampleFirstInvoice ∈ ([] : List Invoice) ∨
      ∃ sd, exampleBooking.startDate = some sd ∧
        exampleFirstInvoice.amount = max (exampleBooking.monthlyRent
          + exampleBooking.maintenanceAmount - exampleBooking.discountAmount
          + exampleBooking.securityDeposit) 0 ∧
        exampleFirstInvoice.dueDate = (monthlyPeriodWindow
          ((none : Option InvoiceSettings).getD defaultInvoiceSettings) sd
          (some exampleBooking)).endD ∧
        exampleFirstInvoice.status = InvStatus.opened) :=
  ⟨by decide,
    (invoice_amounts_by_trigger exampleBooking 5 none true true none
      ⟨2025, 1, 31⟩ []).1 exampleFirstInvoice (by decide)⟩
